import Mathlib

/-!
# Verification of the speechless-music-bot duplex link component

This file gives a shallow embedding, in Lean 4, of the WebSocket link
component of the repository (`connect.py`, with endpoint configuration from
`main.py`), and proves or refutes the frozen specification claims about it.

The embedding follows the source code:

* the reconnection loop of `WSNowPlayingClient.connect` is modelled as a
  fuel-indexed loop over an oracle of per-attempt outcomes;
* the heartbeat loop, the task done-callback `_task_exception_handler`, and
  the (shadowing, second) `close` method are modelled as explicit state
  transformers over the client's flags;
* the command dispatcher `handle_command` (with `handle_search`,
  `send_now_playing` and `send_queue_update`) is modelled as a pure function
  from the decoded inbound frame and the world state (the bot's guilds, the
  connected flag) to the new world state plus the list of messages sent on
  the socket.  External collaborators (wavelink players, guilds, the remote
  track search) are modelled as explicit data and oracles.
-/

namespace Speechless

/-! ## Reconnection supervisor (`WSNowPlayingClient.connect`, connect.py 78-126)

`connect` runs `while attempt < max_attempts and not self.connected:`; each
iteration calls `ws_connect`, which either succeeds (sets `connected`,
spawns the listener and heartbeat tasks, returns) or raises, incrementing
`attempt`.  The per-attempt outcome is an oracle `outcomes : Nat → Bool`
(`outcomes i = true` iff the `ws_connect` call of attempt number `i`,
counting from 0, succeeds). -/

def max_attempts : Nat := 5

/-- The `while attempt < max_attempts and not self.connected` loop of
`connect`, with `remaining = max_attempts - attempt` as fuel.  Returns the
number of `ws_connect` calls made and whether the client ended connected. -/
def connectLoopAux (outcomes : Nat → Bool) : Nat → Nat → Nat × Bool
  | attempt, 0 => (attempt, false)
  | attempt, remaining + 1 =>
    if outcomes attempt then (attempt + 1, true)
    else connectLoopAux outcomes (attempt + 1) remaining

/-- One invocation of `WSNowPlayingClient.connect` (the attempt counter is a
local variable, so every invocation starts it at 0). -/
def connectRun (outcomes : Nat → Bool) : Nat × Bool :=
  connectLoopAux outcomes 0 max_attempts

/-- Total number of `ws_connect` calls over the life of the Link.  Each list
entry is the outcome oracle of one invocation of `connect`.  After a
successful invocation the receive loop (`listen`, connect.py 296-319)
eventually terminates and its `finally` block runs
`asyncio.create_task(self.connect())`, starting the next invocation — with
the local attempt counter reset to 0.  After an invocation that exhausts its
attempts (gives up), nothing schedules a further invocation: the listener is
not running, and the heartbeat loop exits without escalating. -/
def lifetimeAttempts : List (Nat → Bool) → Nat
  | [] => 0
  | ep :: rest =>
    let r := connectRun ep
    if r.2 then r.1 + lifetimeAttempts rest else r.1

/-- Whether a run of the Link (a sequence of `connect` invocations, each
successful one followed by a receive-loop termination that triggers the
next) ends in the given-up state. -/
def reachedGivenUp : List (Nat → Bool) → Bool
  | [] => false
  | ep :: rest =>
    let r := connectRun ep
    if r.2 then reachedGivenUp rest else true

/-- A lifetime with a successful first `connect` invocation (success on its
fifth attempt) whose connection later drops, followed by a second invocation
whose five attempts all fail. -/
def exEpisodes : List (Nat → Bool) :=
  [fun i => decide (i = 4), fun _ => false]

/-! ## Heartbeat monitor and task done-callback (connect.py 32-76) -/

/-- The client flags relevant to failure escalation: `connected`
(`self.connected`), `reconnecting` (`self._reconnecting`; the attribute is
absent until first set, modelled as `false`), and whether a delayed
reconnection task has actually been created. -/
structure SupState where
  connected : Bool
  reconnecting : Bool
  reconnectScheduled : Bool
deriving DecidableEq, Repr

/-- Result of an asyncio task, as observed by a done-callback via
`task.result()`. -/
inductive TaskResult where
  | completed
  | cancelled
  | failed (msg : String)
deriving DecidableEq, Repr

/-- How one pass through the body of `_heartbeat_loop`'s
`while self.connected:` loop ends. -/
inductive HBStep where
  /-- the `while` condition is false: `connected` is `false` -/
  | loopExit
  /-- heartbeat sent; the loop sleeps 30 s and iterates again -/
  | sent
  /-- `self.ws` is missing or closed: print and `break` -/
  | breakClosed
  /-- `send_str` raised: the exception is caught, printed, and the loop
  `break`s — it is not re-raised -/
  | breakError
deriving DecidableEq, Repr

/-- One iteration of `_heartbeat_loop` (connect.py 37-51). `wsOpen` is
`self.ws and not self.ws.closed`; `sendOk` is whether `send_str` succeeds.
No field of the client is written in any branch. -/
def heartbeat_iter (connected wsOpen sendOk : Bool) : HBStep :=
  if connected = false then .loopExit
  else if wsOpen then
    if sendOk then .sent else .breakError
  else .breakClosed

/-- The result of the heartbeat task once its loop has ended: every
exception is caught inside the loop body, so the coroutine always returns
normally and the task result is `completed` (unless externally
cancelled). -/
def heartbeat_task_result : HBStep → TaskResult
  | _ => .completed

/-- `_task_exception_handler` (connect.py 54-76), the done-callback attached
to the listener and heartbeat tasks.  On a failed task it sets
`connected := false` and, if not already reconnecting, sets
`_reconnecting := true` and then evaluates `self._delayed_reconnect` — but
`_delayed_reconnect` is defined as a local function nested inside this very
handler (connect.py 70-76), never bound as a method, so the attribute lookup
raises `AttributeError` out of the callback and no reconnection task is ever
created. -/
def task_exception_handler (st : SupState) (r : TaskResult) : SupState :=
  match r with
  | .completed => st
  | .cancelled => st
  | .failed _ =>
    let st1 : SupState := { st with connected := false }
    if st1.reconnecting = false then
      { st1 with reconnecting := true, reconnectScheduled := false }
    else st1

/-- End-to-end effect of a heartbeat send failure: the loop body runs with
`sendOk = false`, the exception is caught and the loop `break`s, the task
completes normally, and the done-callback runs on the completed task. -/
def heartbeat_failure_outcome (st : SupState) (wsOpen : Bool) :
    SupState × HBStep :=
  let step := heartbeat_iter st.connected wsOpen false
  (task_exception_handler st (heartbeat_task_result step), step)

/-! ## `close` and pending reconnection (connect.py 296-319, 524-531)

The class defines `close` twice; the second definition (connect.py 524-531)
shadows the first.  It closes the socket and the session and sets
`connected := false`. -/

/-- The client flags relevant to `close` and `connect`. -/
structure LinkFlags where
  connected : Bool
  wsOpen : Bool
  sessionOpen : Bool
deriving DecidableEq, Repr

/-- The effective `close` (connect.py 524-531): close the socket, close the
session, clear `connected`.  No other flag is consulted or set; in
particular nothing records that the Link was deliberately shut down. -/
def close (st : LinkFlags) : LinkFlags :=
  { st with wsOpen := false, sessionOpen := false, connected := false }

/-- One invocation of `connect` as a state transformer (connect.py 78-126):
drop the old socket, then run the attempt loop as long as
`not self.connected`; on success the socket is open and `connected` is set,
on give-up the session is closed.  This is the body of the reconnection
task that `listen`'s `finally` block schedules with
`asyncio.create_task(self.connect())`.  Returns the new flags and the
number of `ws_connect` calls made. -/
def connect_call (st : LinkFlags) (outcomes : Nat → Bool) : LinkFlags × Nat :=
  let st0 : LinkFlags := { st with wsOpen := false }
  if st0.connected then
    ({ st0 with sessionOpen := false }, 0)
  else
    let r := connectRun outcomes
    if r.2 then ({ st0 with wsOpen := true, sessionOpen := true, connected := true }, r.1)
    else ({ st0 with sessionOpen := false, connected := false }, r.1)

/-! ## Endpoint selection (main.py 14-25, connect.py 12-13) -/

/-- `ALLOWED_WS_SOURCES` (main.py 14-20). -/
def ALLOWED_WS_SOURCES : List String :=
  ["100.20.92.101",
   "44.225.181.72",
   "44.227.217.144",
   "cloudflare-website.onrender.com"]

/-- The `WS_IP` environment variable after main.py 23-25 has run:
`if not os.getenv("WS_IP")` (unset or empty) it is set to
`ALLOWED_WS_SOURCES[0]`; otherwise it is left exactly as configured —
no membership check against the allow-list is performed. -/
def resolve_ws_ip (env_ws_ip : Option String) : String :=
  match env_ws_ip with
  | none => ALLOWED_WS_SOURCES.headD ""
  | some s => if s = "" then ALLOWED_WS_SOURCES.headD "" else s

/-- `WS_URL` (connect.py 13): `os.getenv("WS_URL", "ws://127.0.0.1:8000/ws/nowplaying")`.
This — not `WS_IP` — is the endpoint `ws_connect` dials; it does not depend
on `WS_IP` or on the allow-list, and its scheme is whatever the variable
holds (the default is the plain `ws` scheme with host `127.0.0.1`). -/
def WS_URL (env_ws_url : Option String) : String :=
  match env_ws_url with
  | none => "ws://127.0.0.1:8000/ws/nowplaying"
  | some s => s

/-! ## Dispatcher data model (connect.py 128-294, 342-459, 461-522)

The collaborator objects (wavelink players, discord guilds and channels, the
remote track search) are modelled as explicit data.  A wavelink v3 player
keeps `playing = true` while paused; `pause b` only sets the paused flag. -/

/-- A wavelink track.  `artwork` models the `artwork`/`thumbnail` attribute
probed by `getattr` chains (absent or empty is falsy); `length` is in
milliseconds. -/
structure Track where
  title : String
  author : String
  length : Nat
  artwork : Option String
deriving DecidableEq, Repr

/-- A wavelink player: the `playing` and `paused` flags, the queue (in
insertion order), and the queue's `loop` flag (`getattr(queue, 'loop',
False)` — absent is modelled as `false`). -/
structure Player where
  playing : Bool
  paused : Bool
  queue : List Track
  queueLoop : Bool
deriving DecidableEq, Repr

/-- A discord voice channel, reduced to what `handle_search` inspects:
whether it currently has members. -/
structure VoiceChannel where
  hasMembers : Bool
deriving DecidableEq, Repr

/-- A discord guild: its voice client (a wavelink player, when connected),
its text channels (only the head is ever used, for notification messages),
and its voice channels. -/
structure Guild where
  voiceClient : Option Player
  textChannels : List String
  voiceChannels : List VoiceChannel
deriving DecidableEq, Repr

/-- Track metadata as embedded in a `search_result` message
(connect.py 439-444). -/
structure SearchTrack where
  title : String
  artist : String
  thumbnail : String
  duration : Nat
deriving DecidableEq, Repr

/-- A message sent on the WebSocket by the client. -/
inductive OutMsg where
  | nowPlaying (title artist thumbnail : String) (duration position : Nat)
  | queueUpdate (queue : List (String × String))
  | commandResponse (action : String) (success : Bool) (message : String)
  | searchResult (success : Bool) (message : String) (track : Option SearchTrack)
  | heartbeat
deriving DecidableEq, Repr

/-- The world as seen by the client: `BOT_STATE["bot"]` (its guild list;
`none` before initialization), the `connected` flag, and
`BOT_STATE["current_track"]` (written by `send_now_playing`). -/
structure World where
  guilds : Option (List Guild)
  connected : Bool
  currentTrack : Option OutMsg
deriving DecidableEq, Repr

/-- The inbound payload object; only `payload.get("query")` is ever read. -/
structure Payload where
  query : Option String
deriving DecidableEq, Repr

/-- The result of `json.loads` on an inbound frame: either a decode failure
or an object with its `type`, `action` and `payload` fields. -/
inductive Decoded where
  | malformed
  | ok (typ : Option String) (action : Option String) (payload : Payload)
deriving DecidableEq, Repr

/-- Oracles for the external collaborators invoked while dispatching:
the remote track search, the outcome of `voice_channel.connect`, and the
permutation applied by `queue.shuffle()`. -/
structure Env where
  searchResults : String → List Track
  voiceConnectOk : Bool
  connectError : String
  shuffleFn : List Track → List Track

/-- A freshly constructed `wavelink.Player` right after
`voice_channel.connect(cls=wavelink.Player)`: not playing, not paused,
empty queue. -/
def freshPlayer : Player :=
  { playing := false, paused := false, queue := [], queueLoop := false }

/-- Index of the first guild whose `voice_client` is a live player
(connect.py 159-165). -/
def findLiveIdx : List Guild → Option Nat
  | [] => none
  | g :: gs =>
    if g.voiceClient.isSome then some 0
    else (findLiveIdx gs).map (· + 1)

/-- Replace the guild at index `i` by `f` of it (mutation of a guild object
held in the bot's guild list). -/
def modifyGuild : List Guild → Nat → (Guild → Guild) → List Guild
  | [], _, _ => []
  | g :: gs, 0, f => f g :: gs
  | g :: gs, n + 1, f => g :: modifyGuild gs n f

/-- In-place mutation of the live player held by guild `i`. -/
def setLivePlayer (gs : List Guild) (i : Nat) (p : Player) : List Guild :=
  modifyGuild gs i (fun g => { g with voiceClient := some p })

/-- The fixed thumbnail constant of `send_now_playing` (connect.py 468). -/
def default_thumbnail : String := "/static/images/Speechless.png"

/-- `send_now_playing` (connect.py 462-500).  A no-op when not connected.
Otherwise formats the message — from the track object when one is given,
else from the `track_info` string with the falsy fallback
`track_info or "No track playing"` — always with `default_thumbnail` as the
thumbnail, stores it in `BOT_STATE["current_track"]`, and sends it.  (Sends
are modelled as succeeding; send-failure escalation is modelled separately
for the heartbeat path.) -/
def send_now_playing (w : World) (track_info : Option String)
    (track : Option Track) : World × List OutMsg :=
  if w.connected = false then (w, [])
  else
    let msg := match track with
      | some t => OutMsg.nowPlaying t.title t.author default_thumbnail (t.length / 1000) 0
      | none =>
        let title := match track_info with
          | some s => if s = "" then "No track playing" else s
          | none => "No track playing"
        OutMsg.nowPlaying title "" default_thumbnail 0 0
    ({ w with currentTrack := some msg }, [msg])

/-- `send_queue_update` (connect.py 502-522).  A no-op when not connected.
Otherwise sends the whole queue, mapped to `{title, artist}` pairs in
queue order — the comprehension at connect.py 510 applies no truncation. -/
def send_queue_update (w : World) (player : Option Player) :
    World × List OutMsg :=
  if w.connected = false then (w, [])
  else
    let queue_tracks := match player with
      | some p => p.queue.map (fun t => (t.title, t.author))
      | none => []
    (w, [OutMsg.queueUpdate queue_tracks])

/-- The thumbnail fallback chain of a `search_result` track
(connect.py 442): the track's artwork if present and non-empty, else the
fixed imgur default. -/
def searchThumb (artwork : Option String) : String :=
  match artwork with
  | some s => if s = "" then "https://i.imgur.com/opTLRNC.png" else s
  | none => "https://i.imgur.com/opTLRNC.png"

/-- The track object embedded in a successful `search_result`
(connect.py 439-444). -/
def searchTrackOf (t : Track) : SearchTrack :=
  { title := t.title
    artist := t.author
    thumbnail := searchThumb t.artwork
    duration := t.length / 1000 }

/-- The tail of `handle_search` once a player is available
(connect.py 397-446): look the query up, fail on an empty result, otherwise
enqueue (when already playing: queue push followed by a queue update, then
the response) or start playback.  `i` is the index of the guild holding the
player. -/
def handle_search_play (env : Env) (w : World) (gs : List Guild)
    (q : String) (p : Player) (i : Nat) : World × List OutMsg :=
  let w1 : World := { w with guilds := some gs }
  match env.searchResults q with
  | [] => (w1, [OutMsg.searchResult false "No tracks found" none])
  | t :: _ =>
    if p.playing then
      let p2 : Player := { p with queue := p.queue ++ [t] }
      let w2 : World := { w1 with guilds := some (setLivePlayer gs i p2) }
      let r := send_queue_update w2 (some p2)
      (r.1, r.2 ++ [OutMsg.searchResult true ("Added to queue: " ++ t.title)
        (some (searchTrackOf t))])
    else
      let p2 : Player := { p with playing := true }
      let w2 : World := { w1 with guilds := some (setLivePlayer gs i p2) }
      (w2, [OutMsg.searchResult true ("Now playing: " ++ t.title)
        (some (searchTrackOf t))])

/-- `handle_search` (connect.py 342-459).  A falsy (missing or empty) query
is dropped with no response.  With no guild at all the search fails
"Bot is not in any server".  With no live player it joins a voice channel of
the active guild (preferring one with members, else the first; none at all
fails "No voice channels available"); a failed voice connect fails with the
error message.  Then the query is looked up and the track queued or
played. -/
def handle_search (env : Env) (w : World) (gs : List Guild)
    (query : Option String) (activeGuildIdx : Option Nat)
    (liveIdx : Option Nat) : World × List OutMsg :=
  let q? := match query with
    | none => none
    | some s => if s = "" then none else some s
  match q? with
  | none => (w, [])
  | some q =>
    match activeGuildIdx with
    | none => (w, [OutMsg.searchResult false "Bot is not in any server" none])
    | some gIdx =>
      let ap := liveIdx.bind (fun i => (gs[i]?).bind (fun g => g.voiceClient))
      match ap, liveIdx with
      | some p, some i => handle_search_play env w gs q p i
      | _, _ =>
        let vcs := match gs[gIdx]? with
          | some g => g.voiceChannels
          | none => []
        let vc := match vcs.find? (fun c => c.hasMembers) with
          | some c => some c
          | none => vcs.head?
        match vc with
        | none => (w, [OutMsg.searchResult false "No voice channels available" none])
        | some _ =>
          if env.voiceConnectOk then
            let gs1 := modifyGuild gs gIdx
              (fun g => { g with voiceClient := some freshPlayer })
            handle_search_play env w gs1 q freshPlayer gIdx
          else
            (w, [OutMsg.searchResult false
              ("Error connecting to voice: " ++ env.connectError) none])

/-- The `elif` chain for the actions that require a live player
(connect.py 211-287): `play_pause`, `skip`, `previous`, `loop`, `shuffle`,
and the fall-through for any other action, which leaves the defaults
`success = True`, `message = "Command {action} executed"` untouched and
still sends one `command_response`.  `p` is the live player, held by guild
`i`. -/
def dispatch_player_command (env : Env) (w : World) (gs : List Guild)
    (a : String) (p : Player) (i : Nat) : World × List OutMsg :=
  if a = "play_pause" then
    if p.playing then
      if p.paused then
        ({ w with guilds := some (setLivePlayer gs i { p with paused := false }) },
         [OutMsg.commandResponse a true "Resumed playback"])
      else
        ({ w with guilds := some (setLivePlayer gs i { p with paused := true }) },
         [OutMsg.commandResponse a true "Paused playback"])
    else (w, [OutMsg.commandResponse a false "Nothing is playing"])
  else if a = "skip" then
    if p.playing then
      ({ w with guilds := some (setLivePlayer gs i { p with playing := false }) },
       [OutMsg.commandResponse a true "Skipped track"])
    else (w, [OutMsg.commandResponse a false "Nothing is playing"])
  else if a = "previous" then
    (w, [OutMsg.commandResponse a false "Previous track function not implemented"])
  else if a = "loop" then
    let nl := !p.queueLoop
    ({ w with guilds := some (setLivePlayer gs i { p with queueLoop := nl }) },
     [OutMsg.commandResponse a true
       ("Loop mode " ++ (if nl then "enabled" else "disabled"))])
  else if a = "shuffle" then
    if p.queue.isEmpty then
      (w, [OutMsg.commandResponse a false "Queue empty or not available"])
    else
      let p2 : Player := { p with queue := env.shuffleFn p.queue }
      let w1 : World := { w with guilds := some (setLivePlayer gs i p2) }
      let r := send_queue_update w1 (some p2)
      (r.1, r.2 ++ [OutMsg.commandResponse a true "Queue shuffled"])
  else (w, [OutMsg.commandResponse a true ("Command " ++ a ++ " executed")])

/-- The body of `handle_command` inside its `try:` (connect.py 129-287).
`.error` marks an exception reaching the `except` clauses — in this model
only the `json.loads` failure on a malformed frame.  The steps, in source
order: heartbeat acknowledgments return silently; a falsy `action` returns
silently; a missing bot returns silently; the active player, guild, and
text channel are resolved (first guild with a live voice client, else the
first guild); then `stop`, `search`, the no-player error response, and the
per-action chain. -/
def handle_command_body (env : Env) (w : World) (d : Decoded) :
    Except String (World × List OutMsg) :=
  match d with
  | .malformed => .error "Expecting value"
  | .ok typ action payload =>
    if typ = some "heartbeat_ack" then .ok (w, [])
    else
      let a? := match action with
        | none => none
        | some s => if s = "" then none else some s
      match a? with
      | none => .ok (w, [])
      | some a =>
        match w.guilds with
        | none => .ok (w, [])
        | some gs =>
          let liveIdx := findLiveIdx gs
          let activeGuildIdx := match liveIdx with
            | some i => some i
            | none => if gs.isEmpty then none else some 0
          if a = "stop" then
            let gs1 := match liveIdx with
              | some i => modifyGuild gs i (fun g => { g with voiceClient := none })
              | none => gs
            .ok (send_now_playing { w with guilds := some gs1 }
              (some "No track playing") none)
          else if a = "search" then
            .ok (handle_search env w gs payload.query activeGuildIdx liveIdx)
          else
            match liveIdx.bind (fun i => (gs[i]?).bind (fun g => g.voiceClient)),
                liveIdx with
            | some p, some i => .ok (dispatch_player_command env w gs a p i)
            | _, _ =>
              .ok (w, [OutMsg.commandResponse a false
                "Bot is not connected to a voice channel"])

/-- `handle_command` (connect.py 128-294): the body wrapped in the
`try/except` that catches `json.JSONDecodeError` and every other
exception — nothing is sent on either `except` path and nothing propagates
to the receive loop. -/
def handle_command (env : Env) (w : World) (d : Decoded) :
    World × List OutMsg :=
  match handle_command_body env w d with
  | .ok r => r
  | .error _ => (w, [])

/-! ## Derived notions and observation helpers -/

/-- The seven action strings the dispatcher names explicitly. -/
def knownActions : List String :=
  ["stop", "search", "play_pause", "skip", "previous", "loop", "shuffle"]

/-- A decoded `{"action": "play_pause"}` frame. -/
def play_pause_frame : Decoded := .ok none (some "play_pause") { query := none }

/-- A decoded `{"action": "stop"}` frame. -/
def stop_frame : Decoded := .ok none (some "stop") { query := none }

/-- A decoded frame with an action the dispatcher does not know. -/
def foo_frame : Decoded := .ok none (some "foobar") { query := none }

/-- Dispatch `n` consecutive play_pause frames, collecting every message
sent (the receive loop hands frames to `handle_command` one at a time, in
arrival order). -/
def run_play_pause (env : Env) : Nat → World → World × List OutMsg
  | 0, w => (w, [])
  | n + 1, w =>
    let r := handle_command env w play_pause_frame
    let r2 := run_play_pause env n r.1
    (r2.1, r.2 ++ r2.2)

/-- Spec-side description of the response train the claim predicts for a
play_pause sequence: starting from paused state `b`, each command succeeds
and the pause/resume alternates. -/
def alternatingResponses : Bool → Nat → List OutMsg
  | _, 0 => []
  | paused, n + 1 =>
    OutMsg.commandResponse "play_pause" true
        (if paused then "Resumed playback" else "Paused playback") ::
      alternatingResponses (!paused) n

/-- `n`-fold toggle of a boolean, the spec-side paused state after `n`
play_pause commands. -/
def togglePow (b : Bool) : Nat → Bool
  | 0 => b
  | n + 1 => togglePow (!b) n

/-- The paused flag of the active (first live) player of a world. -/
def activePaused (w : World) : Option Bool :=
  w.guilds.bind fun gs => (findLiveIdx gs).bind fun i =>
    (gs[i]?).bind fun g => g.voiceClient.map (fun p => p.paused)

/-- Whether a sent message is a `command_response` envelope. -/
def isCommandResponse : OutMsg → Bool
  | .commandResponse _ _ _ => true
  | _ => false

/-- Whether a sent message is a `now_playing` push. -/
def isNowPlaying : OutMsg → Bool
  | .nowPlaying _ _ _ _ _ => true
  | _ => false

/-- The success flag of a `command_response` (anything else counts as
`false`). -/
def respSuccess : OutMsg → Bool
  | .commandResponse _ s _ => s
  | _ => false

/-- The thumbnail field of a `now_playing` push. -/
def nowPlayingThumbnail : OutMsg → Option String
  | .nowPlaying _ _ th _ _ => some th
  | _ => none

/-! ## Concrete fixtures for counterexamples and witnesses -/

/-- An oracle environment with no search hits, a succeeding voice connect,
and the identity shuffle. -/
def exEnv : Env :=
  { searchResults := fun _ => []
    voiceConnectOk := true
    connectError := ""
    shuffleFn := fun q => q }

/-- A one-field track. -/
def exTrack : Track := { title := "t", author := "a", length := 0, artwork := none }

/-- A player that is playing, not paused, with an empty queue. -/
def livePlayer : Player :=
  { playing := true, paused := false, queue := [], queueLoop := false }

/-- A guild holding `livePlayer`. -/
def exGuild : Guild :=
  { voiceClient := some livePlayer, textChannels := ["general"], voiceChannels := [] }

/-- A connected world whose bot has one guild with a live player. -/
def exWorld : World :=
  { guilds := some [exGuild], connected := true, currentTrack := none }

/-- A player with eleven queued tracks. -/
def player11 : Player :=
  { playing := true, paused := false, queue := List.replicate 11 exTrack,
    queueLoop := false }

/-! ## Helper lemmas -/

theorem connectLoopAux_fst_le (o : Nat → Bool) :
    ∀ (f a : Nat), (connectLoopAux o a f).1 ≤ a + f := by
  intro f
  induction f with
  | zero => intro a; simp [connectLoopAux]
  | succ n ih =>
    intro a
    simp only [connectLoopAux]
    split
    · simp
    · have := ih (a + 1); omega

/-! ## C1: reconnection attempt bound -/

/-- C1 counterexample: a run of the Link in which the first `connect`
invocation succeeds on its fifth attempt, the connection later drops (the
receive loop terminates and its `finally` block schedules `connect` again,
with the local attempt counter starting over at 0), and the second
invocation exhausts its five attempts.  The run reaches the given-up state
after ten connection attempts in total, exceeding the claimed bound of
five: the termination of the receive loop did start a fresh attempt
sequence with a reset counter. -/
theorem c1_counterexample :
    reachedGivenUp exEpisodes = true ∧
    ¬ lifetimeAttempts exEpisodes ≤ max_attempts := by
  constructor
  · rfl
  · decide

/-- C1 amended: each single invocation of `connect` makes at most five
attempts, and an invocation that gives up is terminal for the run — no
further attempts occur automatically after it.  (What the original claim
gets wrong is only cross-invocation accumulation: the attempt counter is a
local variable of `connect`, so the receive-loop termination path restarts
it at 0 and lifetime attempts may exceed five.) -/
theorem c1_episode_bound (o : Nat → Bool) (eps : List (Nat → Bool))
    (h : (connectRun o).2 = false) :
    (connectRun o).1 ≤ max_attempts ∧
    lifetimeAttempts (o :: eps) = (connectRun o).1 := by
  constructor
  · have := connectLoopAux_fst_le o max_attempts 0
    simpa [connectRun] using this
  · simp [lifetimeAttempts, h]

/-- Witness for `c1_episode_bound` at a run whose first invocation fails
all five attempts. -/
theorem c1_episode_bound_witness :
    (connectRun (fun _ => false)).2 = false ∧
    ((connectRun (fun _ => false)).1 ≤ max_attempts ∧
     lifetimeAttempts ((fun _ => false) :: [fun _ => true]) =
       (connectRun (fun _ => false)).1) :=
  ⟨by decide, c1_episode_bound (fun _ => false) [fun _ => true] (by decide)⟩

/-! ## C2: heartbeat send failure -/

/-- C2, evaluated at the failing input: the Link is connected
(`connected = true`), the socket is open, and the heartbeat send raises.
The monitor does stop (`breakError`), but — contrary to the claim — the
`connected` flag stays `true` and no reconnection is scheduled: the loop
body catches the exception and merely breaks, the task therefore completes
normally, and `_task_exception_handler` sees no exception, so neither the
disconnect marking nor the reconnect scheduling in its failure branch ever
runs.  (Even on a genuinely failed task that branch could not schedule
anything: `self._delayed_reconnect` is a local function nested inside the
handler, not a method, so the lookup raises `AttributeError`.) -/
theorem c2_heartbeat_failure_eval :
    heartbeat_failure_outcome ⟨true, false, false⟩ true =
      (⟨true, false, false⟩, HBStep.breakError) := rfl

/-! ## C7: close versus pending reconnection -/

/-- C7, evaluated at the failing input: after the effective `close` (which
clears `connected`), a pending reconnection task scheduled by the receive
loop's `finally` block still proceeds — `connect`'s loop runs precisely
while `connected` is false, so with an accepting server it makes one
attempt and reopens the connection.  `close` suppresses nothing. -/
theorem c7_close_no_suppression :
    (connect_call (close ⟨true, true, true⟩) (fun _ => true)).1.connected = true ∧
    (connect_call (close ⟨true, true, true⟩) (fun _ => true)).2 = 1 := by
  constructor
  · rfl
  · rfl

/-! ## C6: endpoint allow-list -/

/-- C6 counterexample: a configured identifier outside the allow-list is
kept verbatim (no fallback to an allow-listed entry), and the endpoint the
client actually dials is `WS_URL`, whose default host `127.0.0.1` is not in
the allow-list either. -/
theorem c6_counterexample :
    resolve_ws_ip (some "evil.example.com") = "evil.example.com" ∧
    "evil.example.com" ∉ ALLOWED_WS_SOURCES ∧
    WS_URL none = "ws://127.0.0.1:8000/ws/nowplaying" := by
  refine ⟨rfl, ?_, rfl⟩
  decide

/-- C6 amended: only a missing or empty `WS_IP` falls back to the first
allow-list entry; any non-empty identifier is used unchecked; and the
connection endpoint is `WS_URL` (default
`ws://127.0.0.1:8000/ws/nowplaying`), taken verbatim from the environment
independently of `WS_IP`, the allow-list, and any hostname/IP scheme
distinction. -/
theorem c6_no_validation (s : String) (h : s ≠ "") :
    resolve_ws_ip (some s) = s ∧
    resolve_ws_ip none = ALLOWED_WS_SOURCES.headD "" ∧
    (∀ u, WS_URL (some u) = u) := by
  refine ⟨?_, rfl, fun u => rfl⟩
  simp [resolve_ws_ip, h]

/-- Witness for `c6_no_validation` at an allow-listed identifier. -/
theorem c6_no_validation_witness :
    ("44.225.181.72" : String) ≠ "" ∧
    (resolve_ws_ip (some "44.225.181.72") = "44.225.181.72" ∧
     resolve_ws_ip none = ALLOWED_WS_SOURCES.headD "" ∧
     (∀ u, WS_URL (some u) = u)) :=
  ⟨by decide, c6_no_validation "44.225.181.72" (by decide)⟩

/-! ## C8: malformed frames -/

/-- C8: a malformed (non-decodable) frame is dropped inside
`handle_command`: the decode exception is caught, no message is emitted, no
state changes, and the call returns normally to the receive loop, which
carries on with the next frame. -/
theorem c8_malformed_dropped (env : Env) (w : World) :
    handle_command env w Decoded.malformed = (w, []) := rfl

/-! ## C10: fixed thumbnail -/

/-- C10: every `now_playing` message produced while connected carries the
fixed thumbnail `/static/images/Speechless.png` — for a real track
(whatever its artwork) and for the canonical empty snapshot alike. -/
theorem c10_thumbnail_constant (w : World) (info : Option String)
    (tr : Option Track) (h : w.connected = true) :
    ∀ m ∈ (send_now_playing w info tr).2,
      nowPlayingThumbnail m = some "/static/images/Speechless.png" := by
  intro m hm
  cases tr with
  | some t =>
    simp [send_now_playing, h] at hm
    subst hm
    rfl
  | none =>
    simp [send_now_playing, h] at hm
    subst hm
    rfl

/-- Witness for `c10_thumbnail_constant` on a connected world and a track
with no artwork. -/
theorem c10_thumbnail_constant_witness :
    exWorld.connected = true ∧
    ∀ m ∈ (send_now_playing exWorld none (some exTrack)).2,
      nowPlayingThumbnail m = some "/static/images/Speechless.png" :=
  ⟨rfl, c10_thumbnail_constant exWorld none (some exTrack) rfl⟩

/-! ## C4: queue snapshot size -/

/-- C4 counterexample: with an eleven-track queue, the transmitted
`queue_update` carries all eleven entries — the claimed bound of ten is
exceeded, because the comprehension in `send_queue_update` applies no
truncation. -/
theorem c4_counterexample :
    (send_queue_update exWorld (some player11)).2 =
      [OutMsg.queueUpdate (List.replicate 11 (("t" : String), ("a" : String)))] ∧
    ¬ (List.replicate 11 (("t" : String), ("a" : String))).length ≤ 10 := by
  constructor
  · rfl
  · decide

/-- C4 amended: while connected, the transmitted `queue_update` carries the
whole underlying queue — every entry, mapped to its `{title, artist}` pair
in insertion order — with no 10-entry cap. -/
theorem c4_full_queue (w : World) (p : Player) (h : w.connected = true) :
    (send_queue_update w (some p)).2 =
      [OutMsg.queueUpdate (p.queue.map (fun t => (t.title, t.author)))] := by
  simp [send_queue_update, h]

/-- Witness for `c4_full_queue` on the eleven-track queue. -/
theorem c4_full_queue_witness :
    exWorld.connected = true ∧
    (send_queue_update exWorld (some player11)).2 =
      [OutMsg.queueUpdate (player11.queue.map (fun t => (t.title, t.author)))] :=
  ⟨rfl, c4_full_queue exWorld player11 rfl⟩

/-! ## C3: the stop command -/

/-- C3 counterexample: a stop frame dispatched in a connected world with a
live player emits exactly one `now_playing` push but zero
`command_response` envelopes — the stop branch of `handle_command` returns
before the response block — so the claimed "exactly one correlated
success/failure response" fails. -/
theorem c3_counterexample :
    (handle_command exEnv exWorld stop_frame).2.countP isNowPlaying = 1 ∧
    ¬ (handle_command exEnv exWorld stop_frame).2.countP isCommandResponse = 1 := by
  constructor
  · decide
  · decide

/-- C3 amended: while connected, a stop frame yields exactly one
`now_playing` push carrying the canonical empty snapshot (title
"No track playing", empty artist, zero duration) whether or not a live
player exists — and no `command_response` envelope at all. -/
theorem c3_stop_push_no_response (env : Env) (w : World) (gs : List Guild)
    (typ : Option String) (payload : Payload)
    (hconn : w.connected = true) (hbot : w.guilds = some gs)
    (htyp : typ ≠ some "heartbeat_ack") :
    (handle_command env w (Decoded.ok typ (some "stop") payload)).2 =
      [OutMsg.nowPlaying "No track playing" "" default_thumbnail 0 0] := by
  cases hL : findLiveIdx gs with
  | none =>
    simp [handle_command, handle_command_body, htyp, hbot, hL,
      send_now_playing, hconn]
  | some i =>
    simp [handle_command, handle_command_body, htyp, hbot, hL,
      send_now_playing, hconn]

/-- Witness for `c3_stop_push_no_response` on the connected one-guild
world. -/
theorem c3_stop_push_no_response_witness :
    exWorld.connected = true ∧ exWorld.guilds = some [exGuild] ∧
    (none : Option String) ≠ some "heartbeat_ack" ∧
    (handle_command exEnv exWorld
        (Decoded.ok none (some "stop") { query := none })).2 =
      [OutMsg.nowPlaying "No track playing" "" default_thumbnail 0 0] :=
  ⟨rfl, rfl, by decide,
    c3_stop_push_no_response exEnv exWorld [exGuild] none { query := none }
      rfl rfl (by decide)⟩

/-! ## C5: unknown or missing action -/

/-- C5 counterexample: an unknown action dispatched with a live player is
not ignored — the dispatcher falls through its `elif` chain with the
defaults intact and emits a success response "Command foobar executed". -/
theorem c5_counterexample :
    (handle_command exEnv exWorld foo_frame).2 =
      [OutMsg.commandResponse "foobar" true "Command foobar executed"] ∧
    (handle_command exEnv exWorld foo_frame).2 ≠ [] := by
  constructor
  · decide
  · decide

/-- C5 amended: a missing (absent or empty) action is ignored — no effect,
no response — and nothing crashes the loop; but an action outside the known
set is not ignored: with no live player it draws the failure response
"Bot is not connected to a voice channel", and with a live player it draws
a success response "Command (action) executed". -/
theorem c5_unknown_action (env : Env) (w : World) (typ : Option String)
    (payload : Payload) (a : String)
    (htyp : typ ≠ some "heartbeat_ack") (hne : a ≠ "")
    (hk : a ∉ knownActions) :
    handle_command env w (Decoded.ok typ none payload) = (w, []) ∧
    handle_command env w (Decoded.ok typ (some "") payload) = (w, []) ∧
    (∀ gs, w.guilds = some gs →
      (findLiveIdx gs = none →
        handle_command env w (Decoded.ok typ (some a) payload) =
          (w, [OutMsg.commandResponse a false
            "Bot is not connected to a voice channel"])) ∧
      (∀ i g p, findLiveIdx gs = some i → gs[i]? = some g →
        g.voiceClient = some p →
        handle_command env w (Decoded.ok typ (some a) payload) =
          (w, [OutMsg.commandResponse a true ("Command " ++ a ++ " executed")]))) := by
  simp only [knownActions, List.mem_cons, List.not_mem_nil, or_false] at hk
  push_neg at hk
  obtain ⟨hstop, hsearch, hpp, hskip, hprev, hloop, hshuf⟩ := hk
  refine ⟨?_, ?_, ?_⟩
  · simp [handle_command, handle_command_body, htyp]
  · simp [handle_command, handle_command_body, htyp]
  · intro gs hgs
    constructor
    · intro hL
      simp [handle_command, handle_command_body, htyp, hne, hgs, hL,
        hstop, hsearch]
    · intro i g p hL hg hp
      simp [handle_command, handle_command_body, htyp, hne, hgs, hL, hg, hp,
        dispatch_player_command, hstop, hsearch, hpp, hskip, hprev, hloop, hshuf]

/-- Witness for `c5_unknown_action` at the action "foobar". -/
theorem c5_unknown_action_witness :
    (none : Option String) ≠ some "heartbeat_ack" ∧
    ("foobar" : String) ≠ "" ∧ "foobar" ∉ knownActions ∧
    (handle_command exEnv exWorld (Decoded.ok none none { query := none }) =
        (exWorld, []) ∧
     handle_command exEnv exWorld (Decoded.ok none (some "") { query := none }) =
        (exWorld, []) ∧
     (∀ gs, exWorld.guilds = some gs →
       (findLiveIdx gs = none →
         handle_command exEnv exWorld
             (Decoded.ok none (some "foobar") { query := none }) =
           (exWorld, [OutMsg.commandResponse "foobar" false
             "Bot is not connected to a voice channel"])) ∧
       (∀ i g p, findLiveIdx gs = some i → gs[i]? = some g →
         g.voiceClient = some p →
         handle_command exEnv exWorld
             (Decoded.ok none (some "foobar") { query := none }) =
           (exWorld, [OutMsg.commandResponse "foobar" true
             ("Command " ++ "foobar" ++ " executed")])))) :=
  ⟨by decide, by decide, by decide,
    c5_unknown_action exEnv exWorld none { query := none } "foobar"
      (by decide) (by decide) (by decide)⟩

/-! ## C9: play_pause toggling -/

theorem modifyGuild_getElem_self (gs : List Guild) :
    ∀ (i : Nat) (f : Guild → Guild) (g : Guild), gs[i]? = some g →
      (modifyGuild gs i f)[i]? = some (f g) := by
  induction gs with
  | nil => intro i f g h; simp at h
  | cons a rest ih =>
    intro i f g h
    cases i with
    | zero =>
      simp at h
      subst h
      simp [modifyGuild]
    | succ n =>
      simp at h
      simpa [modifyGuild] using ih n f g h

theorem findLiveIdx_setLivePlayer (gs : List Guild) :
    ∀ (i : Nat) (p : Player), findLiveIdx gs = some i →
      findLiveIdx (setLivePlayer gs i p) = some i := by
  induction gs with
  | nil => intro i p h; simp [findLiveIdx] at h
  | cons g rest ih =>
    intro i p h
    by_cases hv : g.voiceClient.isSome
    · simp [findLiveIdx, hv] at h
      subst h
      simp [setLivePlayer, modifyGuild, findLiveIdx]
    · simp [findLiveIdx, hv] at h
      obtain ⟨j, hj, rfl⟩ := h
      have := ih j p hj
      simpa [setLivePlayer, modifyGuild, findLiveIdx, hv] using this

theorem togglePow_parity (n : Nat) :
    togglePow false n = decide (n % 2 = 1) ∧
    togglePow true n = decide (n % 2 = 0) := by
  induction n with
  | zero => exact ⟨rfl, rfl⟩
  | succ n ih =>
    obtain ⟨h1, h2⟩ := ih
    constructor
    · simp only [togglePow, Bool.not_false]
      rw [h2]
      exact decide_eq_decide.mpr (by omega)
    · simp only [togglePow, Bool.not_true]
      rw [h1]
      exact decide_eq_decide.mpr (by omega)

theorem alternatingResponses_success :
    ∀ (n : Nat) (b : Bool) (m : OutMsg),
      m ∈ alternatingResponses b n → respSuccess m = true := by
  intro n
  induction n with
  | zero => intro b m hm; simp [alternatingResponses] at hm
  | succ n ih =>
    intro b m hm
    simp only [alternatingResponses, List.mem_cons] at hm
    rcases hm with h | h
    · subst h; rfl
    · exact ih _ _ h

theorem handle_command_play_pause_step (env : Env) (w : World)
    (gs : List Guild) (i : Nat) (g : Guild) (p : Player)
    (hw : w.guilds = some gs) (hf : findLiveIdx gs = some i)
    (hg : gs[i]? = some g) (hv : g.voiceClient = some p)
    (hp : p.playing = true) :
    handle_command env w play_pause_frame =
      ({ w with guilds := some (setLivePlayer gs i { p with paused := !p.paused }) },
       [OutMsg.commandResponse "play_pause" true
         (if p.paused then "Resumed playback" else "Paused playback")]) := by
  cases hpause : p.paused <;>
    simp [handle_command, handle_command_body, play_pause_frame, hw, hf, hg,
      hv, dispatch_player_command, hp, hpause]

theorem run_play_pause_spec (env : Env) :
    ∀ (n : Nat) (w : World) (gs : List Guild) (i : Nat) (g : Guild)
      (p : Player),
      w.guilds = some gs → findLiveIdx gs = some i → gs[i]? = some g →
      g.voiceClient = some p → p.playing = true →
      (run_play_pause env n w).2 = alternatingResponses p.paused n ∧
      activePaused (run_play_pause env n w).1 = some (togglePow p.paused n) := by
  intro n
  induction n with
  | zero =>
    intro w gs i g p hw hf hg hv hp
    constructor
    · rfl
    · simp [run_play_pause, activePaused, togglePow, hw, hf, hg, hv]
  | succ n ih =>
    intro w gs i g p hw hf hg hv hp
    have hstep := handle_command_play_pause_step env w gs i g p hw hf hg hv hp
    have hf2 : findLiveIdx (setLivePlayer gs i { p with paused := !p.paused }) =
        some i :=
      findLiveIdx_setLivePlayer gs i _ hf
    have hg2 : (setLivePlayer gs i { p with paused := !p.paused })[i]? =
        some { g with voiceClient := some { p with paused := !p.paused } } :=
      modifyGuild_getElem_self gs i _ g hg
    have hrec := ih
      { w with guilds := some (setLivePlayer gs i { p with paused := !p.paused }) }
      (setLivePlayer gs i { p with paused := !p.paused }) i
      { g with voiceClient := some { p with paused := !p.paused } }
      { p with paused := !p.paused } rfl hf2 hg2 rfl (by simpa using hp)
    simp only [run_play_pause, hstep]
    constructor
    · simpa [alternatingResponses] using hrec.1
    · simpa [togglePow] using hrec.2

/-- C9: against a live player that is playing and unpaused, a sequence of
`n` play_pause commands produces exactly the alternating pause/resume
response train — every response with `success = true` — and leaves the
player's paused flag equal to the parity of `n`; against a live player that
is not playing, play_pause yields the single failure response
"Nothing is playing". -/
theorem c9_play_pause (env : Env) (n : Nat) (w : World) (gs : List Guild)
    (i : Nat) (g : Guild) (p : Player)
    (hw : w.guilds = some gs) (hf : findLiveIdx gs = some i)
    (hg : gs[i]? = some g) (hv : g.voiceClient = some p) :
    (p.playing = true → p.paused = false →
      (run_play_pause env n w).2 = alternatingResponses false n ∧
      (∀ m ∈ (run_play_pause env n w).2, respSuccess m = true) ∧
      activePaused (run_play_pause env n w).1 = some (decide (n % 2 = 1))) ∧
    (p.playing = false →
      handle_command env w play_pause_frame =
        (w, [OutMsg.commandResponse "play_pause" false "Nothing is playing"])) := by
  constructor
  · intro hp hpause
    obtain ⟨h1, h2⟩ := run_play_pause_spec env n w gs i g p hw hf hg hv hp
    rw [hpause] at h1 h2
    refine ⟨h1, ?_, ?_⟩
    · intro m hm
      rw [h1] at hm
      exact alternatingResponses_success n false m hm
    · rw [h2, (togglePow_parity n).1]
  · intro hp
    simp [handle_command, handle_command_body, play_pause_frame, hw, hf, hg,
      hv, dispatch_player_command, hp]

/-- Witness for `c9_play_pause`: three play_pause commands on the connected
one-guild world with a playing, unpaused player. -/
theorem c9_play_pause_witness :
    exWorld.guilds = some [exGuild] ∧ findLiveIdx [exGuild] = some 0 ∧
    ([exGuild][0]? = some exGuild) ∧ exGuild.voiceClient = some livePlayer ∧
    ((livePlayer.playing = true → livePlayer.paused = false →
      (run_play_pause exEnv 3 exWorld).2 = alternatingResponses false 3 ∧
      (∀ m ∈ (run_play_pause exEnv 3 exWorld).2, respSuccess m = true) ∧
      activePaused (run_play_pause exEnv 3 exWorld).1 =
        some (decide (3 % 2 = 1))) ∧
    (livePlayer.playing = false →
      handle_command exEnv exWorld play_pause_frame =
        (exWorld, [OutMsg.commandResponse "play_pause" false
          "Nothing is playing"]))) :=
  ⟨rfl, rfl, rfl, rfl,
    c9_play_pause exEnv 3 exWorld [exGuild] 0 exGuild livePlayer rfl rfl rfl rfl⟩

end Speechless
